import Mathlib

set_option linter.unusedVariables false

/-!
Shallow embedding of the mammoth-setup plugin-hosting core: the severity/event
diagnostics model, the validator framework (path validators, uniqueness
validator), the configuration data model (Binding, Module, Host, Mammoth,
ConfigurationFile) and the module loader (LoadedModuleSet), together with
proofs about their specified behavior.
-/

/-- Severity levels from src/error/severity.rs, in declaration order:
Debug, Information, Warning, Error, Critical. -/
inductive Severity where
  | debug
  | information
  | warning
  | error
  | critical
deriving DecidableEq

/-- Numeric rank of a severity following declaration order. -/
def Severity.rank : Severity → Nat
  | .debug => 0
  | .information => 1
  | .warning => 2
  | .error => 3
  | .critical => 4

/-- Boolean comparison of severities, modelling the Rust `severity >= Severity::Error`
threshold test under the declared order Debug < Information < Warning < Error < Critical. -/
def sevGe (a b : Severity) : Bool := decide (b.rank ≤ a.rank)

/-- Semantic version (major, minor, patch, pre-release identifiers), the shape of the
semver crate's `Version` as used by src/version.rs and the module ABI. -/
structure Version where
  major : Nat
  minor : Nat
  patch : Nat
  pre : List String
deriving DecidableEq

/-- Comparator operator of a parsed version requirement; only the tilde operator occurs
in this program (COMPATIBILITY_STRING is "~0.0.0"). -/
inductive ReqOp where
  | tilde
deriving DecidableEq

/-- Parsed semantic-version requirement (a single comparator, as "~0.0.0" parses to). -/
structure VersionReq where
  op : ReqOp
  major : Nat
  minor : Nat
  patch : Nat
deriving DecidableEq

/-- Parsed form of version::COMPATIBILITY_STRING = "~0.0.0" from src/version.rs. -/
def compatReq : VersionReq := ⟨ReqOp.tilde, 0, 0, 0⟩

/-- Requirement matching of the semver crate for a tilde comparator: equal major and
minor, patch at least the required one, and no pre-release tag (the requirement
"~0.0.0" itself carries none, and a pre-release version never matches a
pre-release-free comparator). -/
def VersionReq.matches (r : VersionReq) (v : Version) : Bool :=
  match r.op with
  | .tilde => v.major == r.major && v.minor == r.minor && Nat.ble r.patch v.patch && v.pre.isEmpty

/-- Function version::compatible from src/version.rs: the declared version must satisfy
the parsed COMPATIBILITY_STRING requirement. -/
def compatible (v : Version) : Bool := compatReq.matches v

/-- Display string of a version, "major.minor.patch" with an optional "-pre" tail. -/
def versionStr (v : Version) : String :=
  toString v.major ++ "." ++ toString v.minor ++ "." ++ toString v.patch ++
    (if v.pre.isEmpty then "" else "-" ++ String.intercalate "." v.pre)

/-- Error taxonomy from src/error.rs. Payloads are reduced to the data the program
inspects; `io` carries a description of the underlying I/O or symbol failure. -/
inductive Error where
  | duplicateItem (name : String)
  | fileNotFound (path : String)
  | invalidDirectory (path : String)
  | invalidFilePath (path : String)
  | invalidHostname (name : String)
  | invalidModuleVersion (found : Version) (required : VersionReq)
  | io (what : String)
  | noHost
  | noModsDir
  | secureBindOnInsecure
  | ssl
  | unknown
deriving DecidableEq

/-- Log event: severity plus description, from src/error/event.rs (timestamps are
outside the model; the `Vec<Event>` logger records exactly these two fields). -/
structure Event where
  severity : Severity
  description : String
deriving DecidableEq

/-- Sequencing of validator results, mirroring the Rust `?` operator on
`Result<(), Error>` while threading the logger state. -/
def vbind (r : List Event × Except Error Unit) (k : List Event → List Event × Except Error Unit) :
    List Event × Except Error Unit :=
  match r with
  | (l, Except.error e) => (l, Except.error e)
  | (l, Except.ok _) => k l

/-- Model of an opened native library: the optional `__version` and `__construct`
exported symbols (a missing symbol makes `Library::get` fail). A constructor symbol
is an abstract identifier whose behavior the environment resolves. -/
structure NativeLibrary where
  versionSym : Option Version
  constructSym : Option Nat
deriving DecidableEq

/-- External environment of the program: target platform flag, filesystem queries,
native library opening, the two hostname regexes of src/config/host.rs, the TLS
certificate/key acceptance check, and module-supplied behavior (interface
construction from a constructor symbol and configuration, and on_validation). -/
structure Env where
  windows : Bool
  isDir : String → Bool
  isFile : String → Bool
  openLib : String → Option NativeLibrary
  reIpMatch : String → Bool
  reAddrMatch : String → Bool
  sslOk : String → String → Bool
  construct : Nat → Option Nat → Nat
  onValidationRun : Nat → Option Nat → List Event → List Event × Except Error Unit

/-- Inert environment used for concrete evaluations: empty filesystem, no loadable
libraries, no matching hostnames. -/
def env0 : Env :=
  ⟨false, fun _ => false, fun _ => false, fun _ => none, fun _ => false, fun _ => false,
   fun _ _ => false, fun _ _ => 0, fun _ _ l => (l, Except.ok ())⟩

/-- Kind of validation for paths, from src/diagnostics.rs. -/
inductive PathValidatorKind where
  | existingDirectory
  | existingFile
  | filePath
deriving DecidableEq

/-- Suffix test on strings by their character sequences, modelling Rust's
str::ends_with as used on the lossy string form of a path. -/
def strEndsWith (s suffix : String) : Bool := suffix.data.isSuffixOf s.data

/-- Debug formatting of a path: the Rust `{:?}` format wraps the path in double quotes. -/
def dq (s : String) : String := "\"" ++ s ++ "\""

/-- PathValidator::validate from src/diagnostics.rs lines 147-171: test the failure
condition for the kind; on failure log at the configured severity and return the
matching error only when that severity reaches Error; otherwise return Ok. -/
def PathValidator.validate (e : Env) (severity : Severity) (data : PathValidatorKind)
    (logger : List Event) (item : String) : List Event × Except Error Unit :=
  match data with
  | .filePath =>
    if strEndsWith item "/" then
      let logger := logger ++ [⟨severity, "Not a valid file name: '" ++ dq item ++ "'."⟩]
      if sevGe severity Severity.error then (logger, Except.error (Error.invalidFilePath item))
      else (logger, Except.ok ())
    else (logger, Except.ok ())
  | .existingDirectory =>
    if !(e.isDir item) then
      let logger := logger ++ [⟨severity, "Directory does not exist: '" ++ dq item ++ "'."⟩]
      if sevGe severity Severity.error then (logger, Except.error (Error.fileNotFound item))
      else (logger, Except.ok ())
    else (logger, Except.ok ())
  | .existingFile =>
    if !(e.isFile item) then
      let logger := logger ++ [⟨severity, "File does not exist: '" ++ dq item ++ "'."⟩]
      if sevGe severity Severity.error then (logger, Except.error (Error.fileNotFound item))
      else (logger, Except.ok ())
    else (logger, Except.ok ())

/-- Failure condition of each path-validator kind (the `if` guard of the matching
arm of PathValidator::validate). -/
def pathFails (e : Env) (k : PathValidatorKind) (p : String) : Bool :=
  match k with
  | .filePath => strEndsWith p "/"
  | .existingDirectory => !(e.isDir p)
  | .existingFile => !(e.isFile p)

/-- Description logged by PathValidator::validate for each kind. -/
def pathDesc (k : PathValidatorKind) (p : String) : String :=
  match k with
  | .filePath => "Not a valid file name: '" ++ dq p ++ "'."
  | .existingDirectory => "Directory does not exist: '" ++ dq p ++ "'."
  | .existingFile => "File does not exist: '" ++ dq p ++ "'."

/-- Error variant returned by PathValidator::validate for each kind. -/
def pathErr (k : PathValidatorKind) (p : String) : Error :=
  match k with
  | .filePath => Error.invalidFilePath p
  | .existingDirectory => Error.fileNotFound p
  | .existingFile => Error.fileNotFound p

/-- Shape of an inner validator: it reads the logger, validates one item, and returns
the updated logger together with the result (the `Validator<I>` contract). -/
abbrev InnerValidator (I : Type) := List Event → I → List Event × Except Error Unit

/-- Loop body of IdValidator::validate from src/diagnostics.rs lines 229-245, with the
`uniques` accumulator explicit: a repeated identifier logs "Unique item declared
twice." at the configured severity and fails with DuplicateItem("temp"); a fresh
identifier is handed to the inner validator (propagating its error) and then pushed
onto the accumulator. The doubled membership test mirrors the doubled
`uniques.contains(&val.id())` in the source. -/
def idValidateAux {I K : Type} [DecidableEq K] (s : Severity) (v : InnerValidator I) (f : I → K)
    (u : List K) (logger : List Event) : List I → List Event × Except Error Unit
  | [] => (logger, Except.ok ())
  | val :: rest =>
    if f val ∈ u ∨ f val ∈ u then
      (logger ++ [⟨s, "Unique item declared twice."⟩], Except.error (Error.duplicateItem "temp"))
    else
      match v logger val with
      | (l, Except.error e) => (l, Except.error e)
      | (l, Except.ok _) => idValidateAux s v f (u ++ [f val]) l rest

/-- IdValidator::validate from src/diagnostics.rs: run the loop with an initially
empty `uniques` vector. The severity `s` is field 0 of the IdValidator, `v` its inner
validator and `f` the `Id::id` projection of the item type. -/
def IdValidator.validate {I K : Type} [DecidableEq K] (s : Severity) (v : InnerValidator I)
    (f : I → K) (logger : List Event) (item : List I) : List Event × Except Error Unit :=
  idValidateAux s v f [] logger item

/-- Plain sequential validation of every item of a list in declared order, stopping at
the first inner-validator error; used to phrase the processing order of IdValidator. -/
def runValidatorAll {I : Type} (v : InnerValidator I) (logger : List Event) :
    List I → List Event × Except Error Unit
  | [] => (logger, Except.ok ())
  | x :: xs =>
    match v logger x with
    | (l, Except.error e) => (l, Except.error e)
    | (l, Except.ok _) => runValidatorAll v l xs

/-- Binding structure from src/config/port.rs: port number, security flag, and
optional certificate and key paths. -/
structure Binding where
  port : Nat
  secure : Bool
  cert : Option String
  key : Option String
deriving DecidableEq

/-- Binding::new: insecure binding on the given port. -/
def Binding.new (port : Nat) : Binding := ⟨port, false, none, none⟩

/-- Binding::with_security: secure binding on the given port with certificate and key. -/
def Binding.with_security (port : Nat) (cert key : String) : Binding :=
  ⟨port, true, some cert, some key⟩

/-- From<u16> for Binding: insecure binding on the given port. -/
def Binding.from_u16 (value : Nat) : Binding := ⟨value, false, none, none⟩

/-- Binding::set_port. -/
def Binding.set_port (b : Binding) (port : Nat) : Binding := { b with port := port }

/-- Binding::clear_security: drop the security flag and both paths. -/
def Binding.clear_security (b : Binding) : Binding :=
  { b with secure := false, cert := none, key := none }

/-- Binding::set_security: set the security flag and both paths. -/
def Binding.set_security (b : Binding) (cert key : String) : Binding :=
  { b with secure := true, cert := some cert, key := some key }

/-- Typed field entries a configuration map may hand to PortVisitor::visit_map
(the PortFields key together with the value read by `next_value`). -/
inductive PortEntry where
  | port (v : Nat)
  | secure (b : Bool)
  | cert (p : String)
  | key (p : String)
deriving DecidableEq

/-- Deserialization errors surfaced by PortVisitor (serde's duplicate_field and
missing_field). -/
inductive DeError where
  | duplicateField (f : String)
  | missingField (f : String)
deriving DecidableEq

/-- Field-collection loop of PortVisitor::visit_map (src/config/port.rs lines 182-206):
each key may be set at most once, a repeated key is a duplicate-field error. -/
def collectPortFields (port : Option Nat) (secure : Option Bool) (cert key : Option String) :
    List PortEntry → Except DeError (Option Nat × Option Bool × Option String × Option String)
  | [] => Except.ok (port, secure, cert, key)
  | PortEntry.port v :: rest =>
    if port.isSome then Except.error (DeError.duplicateField "port")
    else collectPortFields (some v) secure cert key rest
  | PortEntry.secure b :: rest =>
    if secure.isSome then Except.error (DeError.duplicateField "secure")
    else collectPortFields port (some b) cert key rest
  | PortEntry.cert p :: rest =>
    if cert.isSome then Except.error (DeError.duplicateField "cert")
    else collectPortFields port secure (some p) key rest
  | PortEntry.key p :: rest =>
    if key.isSome then Except.error (DeError.duplicateField "key")
    else collectPortFields port secure cert (some p) rest

/-- Decision tail of PortVisitor::visit_map (src/config/port.rs lines 208-218): the
port is required; an explicit `secure = false` yields an insecure binding regardless
of cert/key; otherwise if `secure` is true or a cert or key is present, both cert and
key are required and yield a secure binding; otherwise the binding is insecure. -/
def bindingOfFields (port : Option Nat) (secure : Option Bool) (cert key : Option String) :
    Except DeError Binding :=
  match port with
  | none => Except.error (DeError.missingField "port")
  | some port =>
    match secure with
    | some false => Except.ok (Binding.new port)
    | _ =>
      if secure.getD false || cert.isSome || key.isSome then
        match cert with
        | none => Except.error (DeError.missingField "cert")
        | some c =>
          match key with
          | none => Except.error (DeError.missingField "key")
          | some k => Except.ok (Binding.with_security port c k)
      else Except.ok (Binding.new port)

/-- PortVisitor::visit_map: collect the fields, then decide the binding. -/
def PortVisitor.visit_map (entries : List PortEntry) : Except DeError Binding :=
  match collectPortFields none none none none entries with
  | Except.error e => Except.error e
  | Except.ok (port, secure, cert, key) => bindingOfFields port secure cert key

/-- PortVisitor::visit_u64 (and visit_u8/visit_u32 likewise): `Binding::from(v as u16)`;
the `as u16` cast keeps the low 16 bits, i.e. reduces modulo 2^16. -/
def PortVisitor.visit_u64 (v : Nat) : Except DeError Binding :=
  Except.ok (Binding.from_u16 (v % 65536))

/-- PortVisitor::visit_u16: `Binding::from(v)`, no cast (v is already a u16). -/
def PortVisitor.visit_u16 (v : Nat) : Except DeError Binding :=
  Except.ok (Binding.from_u16 v)

/-- PortVisitor::visit_i64 (and visit_i8/visit_i16/visit_i32 likewise):
`Binding::from(v as u16)`; on a signed value the cast keeps the low 16 bits of the
two's-complement representation, i.e. the nonnegative remainder modulo 2^16. -/
def PortVisitor.visit_i64 (v : Int) : Except DeError Binding :=
  Except.ok (Binding.from_u16 (v % 65536).toNat)

/-- Module structure from src/config/module.rs: name, optional library location,
enablement flag (default true) and optional opaque TOML configuration. -/
structure Module' where
  name : String
  location : Option String
  enabled : Bool
  config : Option Nat
deriving DecidableEq

/-- Module::new: enabled module with no location and no configuration. -/
def Module'.new (name : String) : Module' := ⟨name, none, true, none⟩

/-- Id for Module (src/config/module.rs lines 192-198): the identifier is the name. -/
def Module'.id (m : Module') : String := m.name

/-- HostIdentifier from src/config/host.rs: optional hostname plus port. -/
structure HostIdentifier where
  hostname : Option String
  port : Nat
deriving DecidableEq

/-- Host structure from src/config/host.rs: optional hostname, listen binding,
optional static directory and per-host module list. -/
structure Host where
  hostname : Option String
  listen : Binding
  static_dir : Option String
  mods : List Module'
deriving DecidableEq

/-- Host::new: host with an insecure binding on the given port. -/
def Host.new (port : Nat) : Host := ⟨none, Binding.new port, none, []⟩

/-- Id for Host (src/config/host.rs lines 176-182): identifier is
HostIdentifier::new(listen.port(), name()). -/
def Host.id (h : Host) : HostIdentifier := ⟨h.hostname, h.listen.port⟩

/-- Mammoth structure from src/config/mammoth.rs: optional modules directory, log
file and log severity. -/
structure Mammoth where
  mods_dir : Option String
  log_file : Option String
  log_severity : Option Severity
deriving DecidableEq

/-- Mammoth::new: all fields unset. -/
def Mammoth.new : Mammoth := ⟨none, none, none⟩

/-- ConfigurationFile from src/config.rs: mammoth section, host list, global module
list and optional opaque environment value. -/
structure ConfigurationFile where
  mammoth : Mammoth
  hosts : List Host
  mods : List Module'
  environment : Option Nat
deriving DecidableEq

/-- DYLIB_EXT from src/config/module.rs lines 62-65: ".dll" when the target OS is
Windows and ".so" when it is Linux. -/
def DYLIB_EXT (windows : Bool) : String := if windows then ".dll" else ".so"

/-- PathBuf::join on string paths: append the relative component after a separator
(no extra separator when the base already ends in one). -/
def joinPath (base rel : String) : String :=
  if strEndsWith base "/" then base ++ rel else base ++ "/" ++ rel

/-- Validator<Module> for PathBuf from src/config/module.rs lines 200-234: resolve the
library filename (explicit location, or name + DYLIB_EXT under the validating
directory), open the library, read the `__version` symbol, reject an incompatible
version with a logged critical event and InvalidModuleVersion, construct the
interface from `__construct` with the module configuration, and run on_validation. -/
def Module'.validateWith (e : Env) (dir : String) (logger : List Event) (item : Module') :
    List Event × Except Error Unit :=
  let filename := match item.location with
    | some f => f
    | none => joinPath dir (item.name ++ DYLIB_EXT e.windows)
  match e.openLib filename with
  | none => (logger, Except.error (Error.io filename))
  | some lib =>
    match lib.versionSym with
    | none => (logger, Except.error (Error.io "__version"))
    | some ver =>
      if !(compatible ver) then
        (logger ++ [⟨Severity.critical,
           "Incompatible module version for '" ++ item.name ++ "': " ++ versionStr ver ++
             ". Must respect requisite ~0.0.0."⟩],
         Except.error (Error.invalidModuleVersion ver compatReq))
      else
        match lib.constructSym with
        | none => (logger, Except.error (Error.io "__construct"))
        | some ctor => vbind (e.onValidationRun ctor item.config logger) (fun l => (l, Except.ok ()))

/-- Modelled from the spec: host-level validation delegates binding validity to the
Binding TLS-file check ("binding validity (delegating to Binding's own TLS-file
check below)", section 4.2 of the specification); the `Validator<Binding>`
implementation invoked at src/config/host.rs line 191 is absent from the sources.
A secure binding passes when the TLS layer accepts its certificate and key material;
an insecure binding always passes. -/
def Binding.validateWith (e : Env) (logger : List Event) (b : Binding) :
    List Event × Except Error Unit :=
  if b.secure then
    if e.sslOk (b.cert.getD "") (b.key.getD "") then (logger, Except.ok ())
    else (logger, Except.error Error.ssl)
  else (logger, Except.ok ())

/-- Validator<Host> for PathBuf from src/config/host.rs lines 184-211: binding
validity first; then a hostname failing both the IPv4 and the DNS-name regex is a
fatal InvalidHostname with a critical log; a configured serving directory must be an
existing directory; and the per-host module list passes the uniqueness validator at
critical severity against the modules directory. -/
def Host.validateWith (e : Env) (dir : String) (logger : List Event) (item : Host) :
    List Event × Except Error Unit :=
  vbind (Binding.validateWith e logger item.listen) (fun l =>
  vbind (match item.hostname with
         | some n =>
           if !(e.reIpMatch n) && !(e.reAddrMatch n) then
             (l ++ [⟨Severity.critical, "Invalid hostname: '" ++ n ++ "'."⟩],
              Except.error (Error.invalidHostname n))
           else (l, Except.ok ())
         | none => (l, Except.ok ())) (fun l =>
  vbind (match item.static_dir with
         | some d => PathValidator.validate e Severity.error PathValidatorKind.existingDirectory l d
         | none => (l, Except.ok ())) (fun l =>
  vbind (IdValidator.validate Severity.critical (Module'.validateWith e dir) Module'.id l item.mods)
    (fun l => (l, Except.ok ())))))

/-- Validator<Mammoth> for () from src/config/mammoth.rs lines 62-74: a configured
modules directory must be an existing directory and a configured log file must be a
valid file path, both checked at Error severity; unset fields validate as success. -/
def Mammoth.validateWith (e : Env) (logger : List Event) (item : Mammoth) :
    List Event × Except Error Unit :=
  vbind (match item.mods_dir with
         | some d => PathValidator.validate e Severity.error PathValidatorKind.existingDirectory logger d
         | none => (logger, Except.ok ())) (fun l =>
  vbind (match item.log_file with
         | some f => PathValidator.validate e Severity.error PathValidatorKind.filePath l f
         | none => (l, Except.ok ())) (fun l => (l, Except.ok ())))

/-- Validator<ConfigurationFile> for () from src/config.rs lines 107-131: the Mammoth
section validates first; an empty host list is a critical NoHost; with a modules
directory configured the global module list and then the host list pass the
uniqueness validator at critical severity; without one, declared modules are a
critical NoModsDir. -/
def ConfigurationFile.validateWith (e : Env) (logger : List Event) (item : ConfigurationFile) :
    List Event × Except Error Unit :=
  vbind (Mammoth.validateWith e logger item.mammoth) (fun l =>
    if item.hosts.isEmpty then
      (l ++ [⟨Severity.critical, "No host specified."⟩], Except.error Error.noHost)
    else
      match item.mammoth.mods_dir with
      | some dir =>
        vbind (IdValidator.validate Severity.critical (Module'.validateWith e dir) Module'.id l item.mods)
          (fun l => IdValidator.validate Severity.critical (Host.validateWith e dir) Host.id l item.hosts)
      | none =>
        if !item.mods.isEmpty then
          (l ++ [⟨Severity.critical, "Enabled modules without specifying modules directory."⟩],
           Except.error Error.noModsDir)
        else (l, Except.ok ()))

/-- LoadedLibrary from src/loaded/library.rs: the path it was opened from and the
native library handle. -/
structure LoadedLibrary where
  path : String
  library : NativeLibrary
deriving DecidableEq

/-- LoadedModuleSet from src/loaded/library.rs: default search directory, the
memoized loaded libraries, and the registered (name, interface) modules. -/
structure LoadedModuleSet where
  default_path : String
  libraries : List LoadedLibrary
  modules : List (String × Nat)
deriving DecidableEq

/-- LoadedModuleSet::new: empty set over the given default directory. -/
def LoadedModuleSet.new (default_path : String) : LoadedModuleSet := ⟨default_path, [], []⟩

/-- LoadedModuleSet::load from src/loaded/library.rs lines 47-63: if a loaded library
with the same path is already in the set, return a shared reference to it; otherwise
open the native library at that path (recording the open attempt in the returned
trace and failing if the environment cannot open it), wrap it, append it to the set
and return it. The middle component lists the paths whose native open was attempted
during the call. -/
def LoadedModuleSet.load (s : LoadedModuleSet) (e : Env) (p : String) :
    LoadedModuleSet × List String × Except Error LoadedLibrary :=
  match s.libraries.find? (fun l => l.path == p) with
  | some lib => (s, [], Except.ok lib)
  | none =>
    match e.openLib p with
    | none => (s, [p], Except.error (Error.io p))
    | some nl =>
      let loaded : LoadedLibrary := ⟨p, nl⟩
      (⟨s.default_path, s.libraries ++ [loaded], s.modules⟩, [p], Except.ok loaded)

/-- LoadedModuleSet::lib_path from src/loaded/library.rs lines 65-68: join the default
directory with name + ".dll" (the extension is hardcoded, with no platform switch). -/
def LoadedModuleSet.lib_path (s : LoadedModuleSet) (name : String) : String :=
  joinPath s.default_path (name ++ ".dll")

/-- LoadedModuleSet::insert: append a (name, interface) pair to the modules. -/
def LoadedModuleSet.insert (s : LoadedModuleSet) (name : String) (iface : Nat) :
    LoadedModuleSet :=
  ⟨s.default_path, s.libraries, s.modules ++ [(name, iface)]⟩

/-- Effect trace of a loading operation: native library paths whose open was
attempted, interfaces constructed via `__construct`, and interfaces whose on_load
hook ran. -/
structure LoadEffects where
  opened : List String
  constructed : List Nat
  onLoadRan : List Nat
deriving DecidableEq

/-- Library path resolution at the head of Module::load_into
(src/config/module.rs lines 160-164): the explicit location when present, otherwise
the set's lib_path for the module name. -/
def Module'.resolvePath (m : Module') (s : LoadedModuleSet) : String :=
  match m.location with
  | some path => path
  | none => s.lib_path m.name

/-- Module::load_into from src/config/module.rs lines 158-189: resolve the library
path, load the library through the set, read the `__version` symbol, fail with
InvalidModuleVersion(found, required) when the version does not satisfy the
compatibility requirement, otherwise construct the interface from `__construct` with
the module configuration, run its on_load hook and register (name, interface) in the
set. The LoadEffects component records the external actions taken. -/
def Module'.load_into (m : Module') (e : Env) (s : LoadedModuleSet) :
    LoadedModuleSet × LoadEffects × Except Error Unit :=
  match s.load e (m.resolvePath s) with
  | (s', o, Except.error err) => (s', ⟨o, [], []⟩, Except.error err)
  | (s', o, Except.ok lib) =>
    match lib.library.versionSym with
    | none => (s', ⟨o, [], []⟩, Except.error (Error.io "__version"))
    | some version =>
      if !(compatible version) then
        (s', ⟨o, [], []⟩, Except.error (Error.invalidModuleVersion version compatReq))
      else
        match lib.library.constructSym with
        | none => (s', ⟨o, [], []⟩, Except.error (Error.io "__construct"))
        | some ctor =>
          let iface := e.construct ctor m.config
          (s'.insert m.name iface, ⟨o, [iface], [iface]⟩, Except.ok ())

/-- Security invariant of a Binding: a secure binding has both certificate and key. -/
def Binding.secureInv (b : Binding) : Prop := b.secure = true → b.cert.isSome ∧ b.key.isSome

/-- Concrete native library used in witnesses: compatible version 0.0.1. -/
def nlA : NativeLibrary := ⟨some ⟨0, 0, 1, []⟩, some 8⟩

/-- Concrete native library used in witnesses: incompatible version 1.0.0. -/
def nlM : NativeLibrary := ⟨some ⟨1, 0, 0, []⟩, some 7⟩

/-- Concrete environment used in witnesses: two loadable libraries, nothing else. -/
def envW : Env :=
  { env0 with
    openLib := fun q =>
      if q == "a.so" then some nlA
      else if q == "./mods/m.dll" then some nlM
      else none }

/-- C5: for every path, severity and kind, PathValidator::validate logs an event at
the configured severity exactly when the kind's failure condition holds
(ExistingDirectory fails unless the path is an existing directory, ExistingFile
fails unless it is an existing file, FilePath fails only on a trailing path
separator without requiring existence), and returns the matching error exactly when
the failure condition holds and the severity is at least Error; at lower severities
the failure is logged but Ok is returned. -/
theorem pathValidator_log_and_error_gate (e : Env) (s : Severity) (k : PathValidatorKind)
    (logger : List Event) (p : String) :
    PathValidator.validate e s k logger p =
      (logger ++ (if pathFails e k p then [⟨s, pathDesc k p⟩] else []),
       if pathFails e k p && sevGe s Severity.error then Except.error (pathErr k p)
       else Except.ok ()) := by
  cases k
  case existingDirectory =>
    cases hf : e.isDir p <;> cases hs : sevGe s Severity.error <;>
      simp [PathValidator.validate, pathFails, pathDesc, pathErr, hf, hs]
  case existingFile =>
    cases hf : e.isFile p <;> cases hs : sevGe s Severity.error <;>
      simp [PathValidator.validate, pathFails, pathDesc, pathErr, hf, hs]
  case filePath =>
    cases hf : strEndsWith p "/" <;> cases hs : sevGe s Severity.error <;>
      simp [PathValidator.validate, pathFails, pathDesc, pathErr, hf, hs]

/-- C10: every bare integer value handed to the binding visitor deserializes
successfully to an insecure binding whose port is the value reduced modulo 2^16
(the `as u16` cast), for unsigned and signed integer visitors alike; in particular
65616 is not rejected but yields port 80. -/
theorem integer_binding_wraps_mod_2_16 :
    (∀ v : Nat, PortVisitor.visit_u64 v = Except.ok (Binding.new (v % 65536)))
    ∧ (∀ v : Int, PortVisitor.visit_i64 v = Except.ok (Binding.new (v % 65536).toNat))
    ∧ PortVisitor.visit_u64 65616 = Except.ok (Binding.new 80)
    ∧ (Binding.new 80).secure = false :=
  ⟨fun _ => rfl, fun _ => rfl, rfl, rfl⟩

/-- C9: LoadedModuleSet::lib_path joins the default directory with name + ".dll" on
every platform, although DYLIB_EXT selects ".dll" for Windows and ".so" for Linux;
on Linux the resolved filename therefore disagrees with the platform extension.
Module::load_into resolves through lib_path exactly when the module has no explicit
location, and takes the explicit location otherwise. -/
theorem lib_path_hardcodes_dll :
    (LoadedModuleSet.new "./mods").lib_path "mod_test" = "./mods/mod_test.dll"
    ∧ DYLIB_EXT true = ".dll"
    ∧ DYLIB_EXT false = ".so"
    ∧ joinPath "./mods" ("mod_test" ++ DYLIB_EXT false) = "./mods/mod_test.so"
    ∧ "./mods/mod_test.dll" ≠ "./mods/mod_test.so"
    ∧ (∀ (s : LoadedModuleSet) (n : String), (Module'.new n).resolvePath s = s.lib_path n)
    ∧ (∀ (s : LoadedModuleSet) (n p : String) (en : Bool) (c : Option Nat),
        Module'.resolvePath ⟨n, some p, en, c⟩ s = p) :=
  ⟨by decide, rfl, rfl, by decide, by decide, fun _ _ => rfl, fun _ _ _ _ _ => rfl⟩

/-- C4: decision rules of map deserialization into a Binding: an explicit
`secure = false` yields the insecure binding on the port regardless of cert/key;
otherwise, when `secure` is true or a cert or key is present, both cert and key are
required and the result equals Binding::with_security(port, cert, key); otherwise
the result is the insecure binding; a plain in-range integer value yields an
insecure binding on that port. -/
theorem binding_map_deserialization_rules (p : Nat) (sec : Option Bool) (c k : Option String) :
    (sec = some false → bindingOfFields (some p) sec c k = Except.ok (Binding.new p))
    ∧ (∀ cc kk, sec ≠ some false → c = some cc → k = some kk →
        bindingOfFields (some p) sec c k = Except.ok (Binding.with_security p cc kk))
    ∧ (∀ cc, sec ≠ some false → c = some cc → k = none →
        bindingOfFields (some p) sec c k = Except.error (DeError.missingField "key"))
    ∧ (∀ kk, sec ≠ some false → c = none → k = some kk →
        bindingOfFields (some p) sec c k = Except.error (DeError.missingField "cert"))
    ∧ (sec = some true → c = none →
        bindingOfFields (some p) sec c k = Except.error (DeError.missingField "cert"))
    ∧ (sec ≠ some false → sec ≠ some true → c = none → k = none →
        bindingOfFields (some p) sec c k = Except.ok (Binding.new p))
    ∧ (∀ v : Nat, v < 65536 → PortVisitor.visit_u64 v = Except.ok (Binding.new v)) := by
  refine ⟨?_, ?_, ?_, ?_, ?_, ?_, ?_⟩
  · rintro rfl; rfl
  · rintro cc kk hs rfl rfl
    rcases sec with _ | sb
    · rfl
    · cases sb
      · exact absurd rfl hs
      · rfl
  · rintro cc hs rfl rfl
    rcases sec with _ | sb
    · rfl
    · cases sb
      · exact absurd rfl hs
      · rfl
  · rintro kk hs rfl rfl
    rcases sec with _ | sb
    · rfl
    · cases sb
      · exact absurd rfl hs
      · rfl
  · rintro rfl rfl; rfl
  · rintro hs ht rfl rfl
    rcases sec with _ | sb
    · rfl
    · cases sb
      · exact absurd rfl hs
      · exact absurd rfl ht
  · intro v hv
    show Except.ok (Binding.from_u16 (v % 65536)) = _
    rw [Nat.mod_eq_of_lt hv]
    rfl

/-- Witness for C4: with no `secure` flag and both cert and key present, the result
is the secure binding built by with_security. -/
theorem binding_map_deserialization_rules_witness :
    bindingOfFields (some 443) none (some "./cert.pem") (some "./key.pem") =
      Except.ok (Binding.with_security 443 "./cert.pem" "./key.pem") :=
  (binding_map_deserialization_rules 443 none (some "./cert.pem") (some "./key.pem")).2.1
    "./cert.pem" "./key.pem" (by decide) rfl rfl

/-- Helper: any binding produced by the map-deserialization decision satisfies the
security invariant. -/
lemma bindingOfFields_secureInv (port : Option Nat) (sec : Option Bool) (c k : Option String)
    (b : Binding) (h : bindingOfFields port sec c k = Except.ok b) : b.secureInv := by
  rcases sec with _ | sb <;> try rcases sb with _ | _
  all_goals
    rcases port with _ | p <;> rcases c with _ | cc <;> rcases k with _ | kk <;>
      simp_all [bindingOfFields, Binding.secureInv, Binding.new, Binding.with_security] <;>
      (subst h; simp)

/-- C8: the Binding invariant (secure implies certificate and key present) is
established by Binding::new, Binding::with_security, From<u16> and by
deserialization (both the map visitor and the integer visitors), and is preserved
by set_port, set_security and clear_security. -/
theorem binding_secure_invariant :
    (∀ p, (Binding.new p).secureInv)
    ∧ (∀ p c k, (Binding.with_security p c k).secureInv)
    ∧ (∀ v, (Binding.from_u16 v).secureInv)
    ∧ (∀ entries b, PortVisitor.visit_map entries = Except.ok b → b.secureInv)
    ∧ (∀ v : Nat, ∀ b, PortVisitor.visit_u64 v = Except.ok b → b.secureInv)
    ∧ (∀ v : Nat, ∀ b, PortVisitor.visit_u16 v = Except.ok b → b.secureInv)
    ∧ (∀ v : Int, ∀ b, PortVisitor.visit_i64 v = Except.ok b → b.secureInv)
    ∧ (∀ b p, b.secureInv → (Binding.set_port b p).secureInv)
    ∧ (∀ b c k, (Binding.set_security b c k).secureInv)
    ∧ (∀ b, (Binding.clear_security b).secureInv) := by
  refine ⟨?_, ?_, ?_, ?_, ?_, ?_, ?_, ?_, ?_, ?_⟩
  · intro p; simp [Binding.new, Binding.secureInv]
  · intro p c k; simp [Binding.with_security, Binding.secureInv]
  · intro v; simp [Binding.from_u16, Binding.secureInv]
  · intro entries b h
    unfold PortVisitor.visit_map at h
    cases hcf : collectPortFields none none none none entries with
    | error e => rw [hcf] at h; exact absurd h (by simp)
    | ok q =>
      rw [hcf] at h
      obtain ⟨port, sec, c, k⟩ := q
      exact bindingOfFields_secureInv port sec c k b h
  · intro v b h
    have hb : b = Binding.from_u16 (v % 65536) := by
      simpa [PortVisitor.visit_u64, eq_comm] using h
    subst hb; simp [Binding.from_u16, Binding.secureInv]
  · intro v b h
    have hb : b = Binding.from_u16 v := by
      simpa [PortVisitor.visit_u16, eq_comm] using h
    subst hb; simp [Binding.from_u16, Binding.secureInv]
  · intro v b h
    have hb : b = Binding.from_u16 (v % 65536).toNat := by
      simpa [PortVisitor.visit_i64, eq_comm] using h
    subst hb; simp [Binding.from_u16, Binding.secureInv]
  · intro b p h; cases b; exact h
  · intro b c k; simp [Binding.set_security, Binding.secureInv]
  · intro b; simp [Binding.clear_security, Binding.secureInv]

/-- Witness for C8: set_port preserves the invariant of a secure binding built by
with_security. -/
theorem binding_secure_invariant_witness :
    Binding.secureInv (Binding.set_port (Binding.with_security 443 "./cert.pem" "./key.pem") 8443) :=
  binding_secure_invariant.2.2.2.2.2.2.2.1 (Binding.with_security 443 "./cert.pem" "./key.pem")
    8443 (by simp [Binding.with_security, Binding.secureInv])

/-- Helper: loading a library never changes the registered modules of the set. -/
lemma load_modules_eq (s : LoadedModuleSet) (e : Env) (p : String) :
    ((s.load e p).1).modules = s.modules := by
  unfold LoadedModuleSet.load
  cases hf : s.libraries.find? (fun l => l.path == p) <;> simp [hf]
  cases ho : e.openLib p <;> simp [ho]

/-- Helper: when the lookup finds nothing, the path is absent from the set. -/
lemma find?_none_not_mem (s : LoadedModuleSet) (p : String)
    (hf : s.libraries.find? (fun l => l.path == p) = none) :
    p ∉ s.libraries.map LoadedLibrary.path := by
  intro hm
  obtain ⟨x, hx, hxp⟩ := List.mem_map.mp hm
  have hnp := List.find?_eq_none.mp hf x hx
  simp [hxp] at hnp

/-- Helper: appending a fresh element keeps a list duplicate-free. -/
lemma nodup_append_single {α : Type} (l : List α) (a : α) (h : l.Nodup) (ha : a ∉ l) :
    (l ++ [a]).Nodup := by
  refine List.Nodup.append h (List.nodup_singleton a) ?_
  intro x hx hxa
  rw [List.mem_singleton] at hxa
  subst hxa
  exact ha hx

/-- Helper: load preserves distinctness of the stored library paths. -/
lemma load_nodup (e : Env) (s : LoadedModuleSet) (p : String)
    (h : (s.libraries.map LoadedLibrary.path).Nodup) :
    (((s.load e p).1).libraries.map LoadedLibrary.path).Nodup := by
  unfold LoadedModuleSet.load
  cases hf : s.libraries.find? (fun l => l.path == p) with
  | some lib => simpa [hf] using h
  | none =>
    cases ho : e.openLib p with
    | none => simpa [hf, ho] using h
    | some nl =>
      simp only [hf, ho, List.map_append, List.map_cons, List.map_nil]
      exact nodup_append_single _ _ h (find?_none_not_mem s p hf)

/-- Helper: a present path is returned as the stored entry, with no native open. -/
lemma load_found (e : Env) (s : LoadedModuleSet) (p : String) (lib : LoadedLibrary)
    (h : (s.libraries.map LoadedLibrary.path).Nodup)
    (hm : lib ∈ s.libraries) (hp : lib.path = p) :
    s.load e p = (s, [], Except.ok lib) := by
  unfold LoadedModuleSet.load
  cases hf : s.libraries.find? (fun l => l.path == p) with
  | none =>
    exact absurd (show (lib.path == p) = true by simp [hp]) (List.find?_eq_none.mp hf lib hm)
  | some x =>
    have hpx : x.path = p := by simpa using List.find?_some hf
    have hxm : x ∈ s.libraries := List.mem_of_find?_eq_some hf
    have hxl : x = lib := List.inj_on_of_nodup_map h hxm hm (by rw [hpx, hp])
    rw [hxl]

/-- C2: over a set with pairwise-distinct library paths, load keeps the paths
pairwise distinct; a load of a path already present returns the stored shared entry
and attempts no native open; and after any successful load, loading the same path
again returns the same entry without opening the native library a second time,
so the same path is opened exactly once. -/
theorem loadedModuleSet_load_memoizes (e : Env) (s : LoadedModuleSet) (p : String)
    (h : (s.libraries.map LoadedLibrary.path).Nodup) :
    (((s.load e p).1).libraries.map LoadedLibrary.path).Nodup
    ∧ (∀ lib, lib ∈ s.libraries → lib.path = p → s.load e p = (s, [], Except.ok lib))
    ∧ (∀ t o lib, s.load e p = (t, o, Except.ok lib) →
        t.load e p = (t, [], Except.ok lib)) := by
  refine ⟨load_nodup e s p h, fun lib hm hp => load_found e s p lib h hm hp, ?_⟩
  intro t o lib hl
  unfold LoadedModuleSet.load at hl
  cases hf : s.libraries.find? (fun l => l.path == p) with
  | some x =>
    rw [hf] at hl
    simp only [Prod.mk.injEq] at hl
    obtain ⟨rfl, -, hx⟩ := hl
    have hx' : x = lib := by simpa using hx
    subst hx'
    have hpx : x.path = p := by simpa using List.find?_some hf
    exact load_found e s p x h (List.mem_of_find?_eq_some hf) hpx
  | none =>
    rw [hf] at hl
    cases ho : e.openLib p with
    | none => rw [ho] at hl; simp at hl
    | some nl =>
      rw [ho] at hl
      simp only [Prod.mk.injEq] at hl
      obtain ⟨ht, -, hx⟩ := hl
      have hx' : (⟨p, nl⟩ : LoadedLibrary) = lib := by simpa using hx
      subst hx'
      subst ht
      refine load_found e _ p _ ?_ ?_ rfl
      · simp only [List.map_append, List.map_cons, List.map_nil]
        exact nodup_append_single _ _ h (find?_none_not_mem s p hf)
      · simp

/-- Witness for C2: a first load of "a.so" opens and stores the library; a second
load of the same path returns the stored entry and opens nothing. -/
theorem loadedModuleSet_load_memoizes_witness :
    (LoadedModuleSet.new "./mods").load envW "a.so" =
      (⟨"./mods", [⟨"a.so", nlA⟩], []⟩, ["a.so"], Except.ok ⟨"a.so", nlA⟩)
    ∧ (⟨"./mods", [⟨"a.so", nlA⟩], []⟩ : LoadedModuleSet).load envW "a.so" =
      (⟨"./mods", [⟨"a.so", nlA⟩], []⟩, [], Except.ok ⟨"a.so", nlA⟩) :=
  ⟨rfl,
   (loadedModuleSet_load_memoizes envW (LoadedModuleSet.new "./mods") "a.so" (by simp [LoadedModuleSet.new])).2.2
     ⟨"./mods", [⟨"a.so", nlA⟩], []⟩ ["a.so"] ⟨"a.so", nlA⟩ rfl⟩

/-- C3: when the library resolved for a module loads successfully but its exported
version is incompatible with the host requirement, load_into fails with
InvalidModuleVersion carrying the found version and the required range, constructs
no interface, runs no on_load hook, and registers nothing in the set. -/
theorem load_into_rejects_incompatible_version (e : Env) (m : Module') (s t : LoadedModuleSet)
    (o : List String) (lib : LoadedLibrary) (v : Version)
    (h1 : s.load e (m.resolvePath s) = (t, o, Except.ok lib))
    (h2 : lib.library.versionSym = some v)
    (h3 : compatible v = false) :
    m.load_into e s = (t, ⟨o, [], []⟩, Except.error (Error.invalidModuleVersion v compatReq))
    ∧ t.modules = s.modules := by
  constructor
  · unfold Module'.load_into
    rw [h1]
    simp [h2, h3]
  · have hm := load_modules_eq s e (m.resolvePath s)
    rw [h1] at hm
    exact hm

/-- Witness for C3: a module named "m" resolves to "./mods/m.dll", whose library
exports version 1.0.0, incompatible with "~0.0.0": loading fails with
InvalidModuleVersion(1.0.0, ~0.0.0) and registers nothing. -/
theorem load_into_rejects_incompatible_version_witness :
    (Module'.new "m").load_into envW (LoadedModuleSet.new "./mods") =
      (⟨"./mods", [⟨"./mods/m.dll", nlM⟩], []⟩, ⟨["./mods/m.dll"], [], []⟩,
       Except.error (Error.invalidModuleVersion ⟨1, 0, 0, []⟩ compatReq)) :=
  (load_into_rejects_incompatible_version envW (Module'.new "m") (LoadedModuleSet.new "./mods")
      ⟨"./mods", [⟨"./mods/m.dll", nlM⟩], []⟩ ["./mods/m.dll"] ⟨"./mods/m.dll", nlM⟩
      ⟨1, 0, 0, []⟩ rfl rfl rfl).1

/-- C6 counterexample: a configuration with one declared module, no modules
directory and an empty host list fails validation with NoHost, not NoModsDir, so
the claim does not hold for every such configuration. -/
theorem noModsDir_counterexample :
    (⟨Mammoth.new, [], [Module'.new "mod_test"], none⟩ : ConfigurationFile).mods ≠ []
    ∧ (⟨Mammoth.new, [], [Module'.new "mod_test"], none⟩ : ConfigurationFile).mammoth.mods_dir
        = none
    ∧ ConfigurationFile.validateWith env0 [] ⟨Mammoth.new, [], [Module'.new "mod_test"], none⟩ =
        ([⟨Severity.critical, "No host specified."⟩], Except.error Error.noHost)
    ∧ Error.noHost ≠ Error.noModsDir := by
  refine ⟨by simp, rfl, rfl, by decide⟩

/-- C6 (amended): in a configuration whose Mammoth section validates successfully
and whose host list is non-empty, declaring at least one module with no modules
directory configured makes top-level validation fail with NoModsDir, after logging
the critical diagnostic. -/
theorem noModsDir_when_mods_without_dir (e : Env) (logger L : List Event)
    (c : ConfigurationFile)
    (hm : Mammoth.validateWith e logger c.mammoth = (L, Except.ok ()))
    (hh : c.hosts ≠ [])
    (hd : c.mammoth.mods_dir = none)
    (hmods : c.mods ≠ []) :
    ConfigurationFile.validateWith e logger c =
      (L ++ [⟨Severity.critical, "Enabled modules without specifying modules directory."⟩],
       Except.error Error.noModsDir) := by
  obtain ⟨a, as, hcl⟩ : ∃ a as, c.hosts = a :: as := by
    cases hcl : c.hosts with
    | nil => exact absurd hcl hh
    | cons a as => exact ⟨a, as, rfl⟩
  obtain ⟨b, bs, hml⟩ : ∃ b bs, c.mods = b :: bs := by
    cases hml : c.mods with
    | nil => exact absurd hml hmods
    | cons b bs => exact ⟨b, bs, rfl⟩
  unfold ConfigurationFile.validateWith
  rw [hm]
  simp [vbind, hcl, hml, hd]

/-- Witness for C6 (amended): one host on port 8080, one module "mod_test", no
modules directory: validation fails with NoModsDir. -/
theorem noModsDir_when_mods_without_dir_witness :
    ConfigurationFile.validateWith env0 []
        ⟨Mammoth.new, [Host.new 8080], [Module'.new "mod_test"], none⟩ =
      ([⟨Severity.critical, "Enabled modules without specifying modules directory."⟩],
       Except.error Error.noModsDir) :=
  noModsDir_when_mods_without_dir env0 [] []
    ⟨Mammoth.new, [Host.new 8080], [Module'.new "mod_test"], none⟩
    rfl (by simp) rfl (by simp)

/-- C7: top-level validation validates the Mammoth section first (a Mammoth failure
is returned unchanged), an empty host list fails with NoHost after the critical log,
and the minimal configuration of a default mammoth section with a single host
listening on 8080 validates successfully. -/
theorem config_validates_mammoth_first_then_hosts (e : Env) (logger : List Event)
    (c : ConfigurationFile) :
    (∀ l err, Mammoth.validateWith e logger c.mammoth = (l, Except.error err) →
        ConfigurationFile.validateWith e logger c = (l, Except.error err))
    ∧ (∀ L, Mammoth.validateWith e logger c.mammoth = (L, Except.ok ()) → c.hosts = [] →
        ConfigurationFile.validateWith e logger c =
          (L ++ [⟨Severity.critical, "No host specified."⟩], Except.error Error.noHost))
    ∧ ConfigurationFile.validateWith env0 [] ⟨Mammoth.new, [Host.new 8080], [], none⟩ =
        ([], Except.ok ()) := by
  refine ⟨?_, ?_, rfl⟩
  · intro l err hm
    unfold ConfigurationFile.validateWith
    rw [hm]
    rfl
  · intro L hm hh
    unfold ConfigurationFile.validateWith
    rw [hm]
    simp [vbind, hh]

/-- Witness for C7: with a default mammoth section and no hosts, validation fails
with NoHost. -/
theorem config_validates_mammoth_first_then_hosts_witness :
    ConfigurationFile.validateWith env0 [] ⟨Mammoth.new, [], [], none⟩ =
      ([⟨Severity.critical, "No host specified."⟩], Except.error Error.noHost) :=
  (config_validates_mammoth_first_then_hosts env0 [] ⟨Mammoth.new, [], [], none⟩).2.1
    [] rfl rfl

/-- Helper: while no identifier of the list occurs in the accumulator and the list
has pairwise-distinct identifiers, the uniqueness loop behaves as plain sequential
validation of the items in declared order. -/
lemma idValidateAux_no_dup {I K : Type} [DecidableEq K] (s : Severity) (v : InnerValidator I)
    (f : I → K) (l : List I) : ∀ (u : List K) (logger : List Event),
    (∀ x ∈ l, f x ∉ u) → (l.map f).Nodup →
    idValidateAux s v f u logger l = runValidatorAll v logger l := by
  induction l with
  | nil => intro u logger h0 h1; rfl
  | cons x xs ih =>
    intro u logger h0 h1
    have hx : f x ∉ u := h0 x (List.mem_cons_self x xs)
    rw [idValidateAux, runValidatorAll, if_neg (by simp [hx])]
    cases hv : v logger x with
    | mk l1 r =>
      cases r with
      | error err => rfl
      | ok w =>
        refine ih (u ++ [f x]) l1 ?_ (by simpa using h1.of_cons)
        intro y hy
        simp only [List.mem_append, List.mem_singleton]
        rintro (hyu | hyx)
        · exact h0 y (List.mem_cons_of_mem x hy) hyu
        · have : f x ∉ xs.map f := by
            have := h1
            simp only [List.map_cons, List.nodup_cons] at this
            exact this.1
          exact this (hyx ▸ List.mem_map_of_mem f hy)

/-- Helper: processing a prefix of items with fresh identifiers followed by an item
whose identifier already occurred (in the accumulator or the prefix) validates
exactly the prefix in order, then logs the duplicate event at the configured
severity and stops with DuplicateItem, ignoring everything after the duplicate. -/
lemma idValidateAux_first_dup {I K : Type} [DecidableEq K] (s : Severity) (v : InnerValidator I)
    (f : I → K) (a : List I) : ∀ (u : List K) (logger L : List Event) (d : I) (b : List I),
    (∀ x ∈ a, f x ∉ u) → (a.map f).Nodup → (f d ∈ u ∨ f d ∈ a.map f) →
    runValidatorAll v logger a = (L, Except.ok ()) →
    idValidateAux s v f u logger (a ++ d :: b) =
      (L ++ [⟨s, "Unique item declared twice."⟩], Except.error (Error.duplicateItem "temp")) := by
  induction a with
  | nil =>
    intro u logger L d b h0 h1 h2 h3
    have hL : logger = L := by
      have := congrArg Prod.fst h3
      simpa [runValidatorAll] using this
    subst hL
    have hdu : f d ∈ u := by
      rcases h2 with h | h
      · exact h
      · simp at h
    rw [List.nil_append, idValidateAux, if_pos (Or.inl hdu)]
  | cons x xs ih =>
    intro u logger L d b h0 h1 h2 h3
    have hx : f x ∉ u := h0 x (List.mem_cons_self x xs)
    rw [List.cons_append, idValidateAux, if_neg (by simp [hx])]
    rw [runValidatorAll] at h3
    cases hv : v logger x with
    | mk l1 r =>
      rw [hv] at h3
      cases r with
      | error err => simp at h3
      | ok w =>
        have hxxs : f x ∉ xs.map f := by
          have := h1
          simp only [List.map_cons, List.nodup_cons] at this
          exact this.1
        refine ih (u ++ [f x]) l1 L d b ?_ (by simpa using h1.of_cons) ?_ h3
        · intro y hy
          simp only [List.mem_append, List.mem_singleton]
          rintro (hyu | hyx)
          · exact h0 y (List.mem_cons_of_mem x hy) hyu
          · exact hxxs (hyx ▸ List.mem_map_of_mem f hy)
        · rcases h2 with h | h
          · exact Or.inl (List.mem_append_left _ h)
          · rw [List.map_cons, List.mem_cons] at h
            rcases h with h | h
            · exact Or.inl (List.mem_append_right _ (by simp [h]))
            · exact Or.inr h

/-- C1: IdValidator processes an identified sequence in declared order. A sequence
with pairwise-distinct identifiers is validated exactly as the in-order sequential
run of the inner validator over its items. When a prefix of items with distinct
identifiers validates successfully and is followed by an item repeating one of
their identifiers, validation performs the in-order inner validation of the prefix,
logs the duplicate event at the configured severity, and returns the DuplicateItem
error without examining any later item. -/
theorem idValidator_order_and_fail_fast {I K : Type} [DecidableEq K] (s : Severity)
    (v : InnerValidator I) (f : I → K) :
    (∀ (logger : List Event) (l : List I), (l.map f).Nodup →
        IdValidator.validate s v f logger l = runValidatorAll v logger l)
    ∧ (∀ (logger L : List Event) (a : List I) (d : I) (b : List I),
        (a.map f).Nodup → f d ∈ a.map f → runValidatorAll v logger a = (L, Except.ok ()) →
        IdValidator.validate s v f logger (a ++ d :: b) =
          (L ++ [⟨s, "Unique item declared twice."⟩],
           Except.error (Error.duplicateItem "temp"))) := by
  constructor
  · intro logger l h1
    exact idValidateAux_no_dup s v f l [] logger (by simp) h1
  · intro logger L a d b h1 h2 h3
    exact idValidateAux_first_dup s v f a [] logger L d b (by simp) h1 (Or.inr h2) h3

/-- Witness for C1: identifiers 1, 2 are validated in order, then the repeated
identifier 1 fails with the duplicate-item error and the item 3 after it is never
examined. -/
theorem idValidator_order_and_fail_fast_witness :
    IdValidator.validate Severity.critical (fun l _ => (l, Except.ok ())) (fun x : Nat => x)
        [] [1, 2, 1, 3] =
      ([⟨Severity.critical, "Unique item declared twice."⟩],
       Except.error (Error.duplicateItem "temp")) :=
  (idValidator_order_and_fail_fast Severity.critical (fun l _ => (l, Except.ok ()))
      (fun x : Nat => x)).2 [] [] [1, 2] 1 [3] (by decide) (by decide) rfl
